import Mathlib

/-!
Verification of the external process supervisor of the moraya backend
(src/src-tauri/src/commands/mcp.rs and plugin_manager.rs), as a shallow
embedding: pure helpers are translated directly; the stateful Tauri commands
become explicit state-passing functions over the two registry maps, with the
outcomes of OS interactions (write/flush success, the stream of outcomes the
reader channel delivers, the stderr snapshot) supplied as inputs, and the
process-management syscalls recorded as an explicit action trace.  Lock
acquisition is modelled as always succeeding: poisoning a std Mutex requires a
prior panic of another thread, outside this sequential model.
-/

namespace Moraya

/-- Maximum line length for MCP responses (256 KB), `MAX_LINE_LENGTH` in mcp.rs. -/
def MAX_LINE_LENGTH : Nat := 256 * 1024

/-- Maximum iterations when reading MCP responses, `MAX_READ_ITERATIONS` in mcp.rs. -/
def MAX_READ_ITERATIONS : Nat := 1000

/-- Maximum line length for plugin responses (64 KB), `PLUGIN_MAX_LINE` in plugin_manager.rs. -/
def PLUGIN_MAX_LINE : Nat := 64 * 1024

/-- Rust `str::starts_with(pat)` on complete strings: byte-prefix of valid
UTF-8 coincides with character-list prefix. -/
def rustStartsWith (s p : String) : Bool :=
  List.isPrefixOf p.data s.data

/-- The `BLOCKED_ENV_PREFIXES` constant, identical in mcp.rs and plugin_manager.rs. -/
def blockedEnvNamePatterns : List String :=
  ["LD_PRELOAD", "LD_LIBRARY_PATH", "DYLD_INSERT_LIBRARIES", "DYLD_LIBRARY_PATH",
   "DYLD_FRAMEWORK_PATH", "npm_config_", "npm_lifecycle_", "npm_package_", "NPM_", "PNPM_"]

/-- mcp.rs `is_safe_env_var`: a key is safe when it starts with none of the
blocked patterns. -/
def is_safe_env_var (key : String) : Bool :=
  ! blockedEnvNamePatterns.any (fun p => rustStartsWith key p)

/-- One `cmd.env(k, v)` call on the accumulated child environment: sets the key,
replacing any earlier binding (modelled as an association list). -/
def envSet (m : List (String × String)) (k v : String) : List (String × String) :=
  (k, v) :: m.filter (fun e => e.1 != k)

/-- The child-environment construction in `mcp_connect_stdio` (mcp.rs lines
282-297): `env_clear`, then every safe parent variable, then every safe
caller-supplied override, then the unconditional
`cmd.env("npm_config_userconfig", "/dev/null")`. -/
def build_child_env (parent overrides : List (String × String)) : List (String × String) :=
  let e1 := parent.foldl
    (fun acc kv => if is_safe_env_var kv.1 then envSet acc kv.1 kv.2 else acc) []
  let e2 := overrides.foldl
    (fun acc kv => if is_safe_env_var kv.1 then envSet acc kv.1 kv.2 else acc) e1
  envSet e2 "npm_config_userconfig" "/dev/null"

/-- The character loop of `validate_command` (mcp.rs lines 81-85), parametric in
the Rust standard library classifier `char::is_alphanumeric`. -/
def validate_chars (isAlnum : Char → Bool) : List Char → Except String Unit
  | [] => Except.ok ()
  | c :: rest =>
    if !isAlnum c && c != '-' && c != '_' && c != '.' then
      Except.error "Invalid command: must be a simple executable name"
    else validate_chars isAlnum rest

/-- mcp.rs `validate_command`: rejects the empty string, then rejects any
character that is neither alphanumeric nor one of the three token characters. -/
def validate_command (isAlnum : Char → Bool) (command : String) : Except String Unit :=
  if command.data.isEmpty then Except.error "Command must not be empty"
  else validate_chars isAlnum command.data

/-- Byte length of one scalar value in UTF-8, mirroring how Rust counts
`str::len` bytes per character. -/
def utf8Size (c : Char) : Nat :=
  if c.val < 0x80 then 1 else if c.val < 0x800 then 2 else if c.val < 0x10000 then 3 else 4

/-- Rust `str::len` (UTF-8 byte length) of a character list. -/
def utf8Len (l : List Char) : Nat :=
  (l.map utf8Size).sum

/-- Rust `char::is_whitespace` as used here (the ASCII whitespace on which both
languages agree). -/
def rustIsWhitespace (c : Char) : Bool :=
  c.isWhitespace

/-- Rust `str::trim` on the character list of a string: drop whitespace from
both ends. -/
def trimChars (l : List Char) : List Char :=
  ((l.dropWhile rustIsWhitespace).reverse.dropWhile rustIsWhitespace).reverse

/-- Rust `trimmed.starts_with(char)` specialised to the opening brace used by
the response loops. -/
def headIsLbrace : List Char → Bool
  | [] => false
  | c :: _ => c == Char.ofNat 123

/-- Association-list lookup, modelling `HashMap::get` / presence of a key. -/
def lookupKey {α : Type} : List (String × α) → String → Option α
  | [], _ => none
  | (k2, v) :: rest, k => if k2 == k then some v else lookupKey rest k

/-- `HashMap::remove`: drop the binding of a key. -/
def eraseKey {α : Type} (m : List (String × α)) (k : String) : List (String × α) :=
  m.filter (fun e => e.1 != k)

/-- `HashMap::insert`: bind a key, replacing any previous binding. -/
def insertKey {α : Type} (m : List (String × α)) (k : String) (v : α) : List (String × α) :=
  (k, v) :: eraseKey m k

/-- A line read from worker stdout by the reader thread (`ReadResult` in both
source files). -/
inductive ReadResult where
  | line (s : String)
  | eof
  | error (e : String)
  deriving DecidableEq

/-- One outcome of `line_rx.recv_timeout`: a delivered `ReadResult`, expiry of
the per-receive timeout, or a disconnected channel. -/
inductive RecvOutcome where
  | ok (r : ReadResult)
  | timeout
  | disconnected
  deriving DecidableEq

instance exceptDecEq {ε α : Type} [DecidableEq ε] [DecidableEq α] :
    DecidableEq (Except ε α) := fun x y =>
  match x, y with
  | Except.ok v, Except.ok w =>
    if h : v = w then isTrue (by rw [h]) else isFalse (by intro hc; injection hc; contradiction)
  | Except.error v, Except.error w =>
    if h : v = w then isTrue (by rw [h]) else isFalse (by intro hc; injection hc; contradiction)
  | Except.ok _, Except.error _ => isFalse (fun hc => Except.noConfusion hc)
  | Except.error _, Except.ok _ => isFalse (fun hc => Except.noConfusion hc)

/-- mcp.rs `read_response_channel` (lines 421-468): the channel read loop, over
the list of outcomes the reader channel delivers in order; an exhausted list
means the next receive waits out its timeout.  `stderrMsg` is the non-blocking
stderr snapshot `try_read_stderr` would produce at fault time. -/
def read_response_channel (stderrMsg : String) (iterations : Nat)
    (evs : List RecvOutcome) : Except String String :=
  if iterations + 1 > MAX_READ_ITERATIONS then
    Except.error "MCP response exceeded iteration limit"
  else
    match evs with
    | [] => Except.error "MCP response timeout"
    | RecvOutcome.timeout :: _ => Except.error "MCP response timeout"
    | RecvOutcome.disconnected :: _ =>
        if stderrMsg.data.isEmpty then Except.error "MCP server process ended unexpectedly"
        else Except.error ("MCP server error: " ++ stderrMsg)
    | RecvOutcome.ok ReadResult.eof :: _ =>
        if stderrMsg.data.isEmpty then Except.error "MCP server process ended unexpectedly"
        else Except.error ("MCP server error: " ++ stderrMsg)
    | RecvOutcome.ok (ReadResult.error e) :: _ =>
        Except.error ("Failed to read from MCP server: " ++ e)
    | RecvOutcome.ok (ReadResult.line line) :: rest =>
        if utf8Len line.data > MAX_LINE_LENGTH then
          Except.error "MCP response line exceeded size limit"
        else
          let trimmed := trimChars line.data
          if trimmed.isEmpty then read_response_channel stderrMsg (iterations + 1) rest
          else if headIsLbrace trimmed then Except.ok (String.mk trimmed)
          else read_response_channel stderrMsg (iterations + 1) rest

/-- plugin_manager.rs `read_plugin_response` (lines 816-836): same loop without
any iteration counter; both receive errors map to the timeout message. -/
def read_plugin_response : List RecvOutcome → Except String String
  | [] => Except.error "插件响应超时"
  | RecvOutcome.timeout :: _ => Except.error "插件响应超时"
  | RecvOutcome.disconnected :: _ => Except.error "插件响应超时"
  | RecvOutcome.ok ReadResult.eof :: _ => Except.error "插件进程意外退出"
  | RecvOutcome.ok (ReadResult.error e) :: _ => Except.error ("读取插件响应失败: " ++ e)
  | RecvOutcome.ok (ReadResult.line line) :: rest =>
      if utf8Len line.data > PLUGIN_MAX_LINE then Except.error "插件响应超过长度限制"
      else
        let trimmed := trimChars line.data
        if trimmed.isEmpty then read_plugin_response rest
        else if headIsLbrace trimmed then Except.ok (String.mk trimmed)
        else read_plugin_response rest

/-- A channel outcome the read loops skip: a delivered line within the size
bound whose trimmed text is empty or does not start with an opening brace. -/
def isNoiseLine (bound : Nat) : RecvOutcome → Bool
  | RecvOutcome.ok (ReadResult.line s) =>
      decide (utf8Len s.data ≤ bound) &&
        ((trimChars s.data).isEmpty || !headIsLbrace (trimChars s.data))
  | _ => false

/-- The live handle of one worker (`MCPProcess` / `PluginProcess`): `child` is
represented by its OS pid, `stdin` by the success of the next write and flush
against it, `stderr` by the sanitized snapshot a non-blocking read would yield,
and `line_rx` by the outcomes the channel delivers. -/
structure Worker where
  pid : Nat
  stdinWriteOk : Bool
  stdinFlushOk : Bool
  stderrMsg : String
  channel : List RecvOutcome
  deriving DecidableEq

/-- The shared state of `MCPProcessManager` / `PluginProcessManager` (the two
structs are identical): the worker registry and the separate PID table. -/
structure ProcessManagerState where
  processes : List (String × Worker)
  pids : List (String × Nat)
  deriving DecidableEq

/-- One process-management syscall performed by the supervisor, recorded as a
trace element. -/
inductive Action where
  | sigkillChild (pid : Nat)
  | waitChild (pid : Nat)
  | tryWaitChild (pid : Nat)
  | dropWorker (pid : Nat)
  | sigtermGroup (pid : Nat)
  | sigkillGroup (pid : Nat)
  | reapNohang (pid : Nat)
  | spawnChild (env : List (String × String))
  deriving DecidableEq

/-- mcp.rs `graceful_kill_process_group` (lines 122-161): SIGTERM to the whole
group, poll up to the grace window (reaping on exit), else SIGKILL the group
and reap; whether the leader exits within the grace window is an input. -/
def graceful_kill_process_group (pid : Nat) (exitsWithinGrace : Bool) : List Action :=
  Action.sigtermGroup pid ::
    (if exitsWithinGrace then [Action.reapNohang pid]
     else [Action.sigkillGroup pid, Action.reapNohang pid])

/-- plugin_manager.rs `kill_plugin` (lines 402-426): byte-for-byte the same
sequence as `graceful_kill_process_group`. -/
def kill_plugin (pid : Nat) (exitsWithinGrace : Bool) : List Action :=
  Action.sigtermGroup pid ::
    (if exitsWithinGrace then [Action.reapNohang pid]
     else [Action.sigkillGroup pid, Action.reapNohang pid])

/-- mcp.rs `try_read_stderr`: the non-blocking, best-effort stderr snapshot,
modelled as the worker field holding what that read would produce. -/
def try_read_stderr (w : Worker) : String :=
  w.stderrMsg

/-- mcp.rs `mcp_send_request` (lines 355-417): write and flush the request line
under the lock, check the worker out of the registry, run the channel read loop
unlocked, then re-insert it on success or kill it and drop its PID-table entry
on failure.  Returns the caller-visible result, the new state, and the trace. -/
def mcp_send_request (st : ProcessManagerState) (server_id : String) (_request : String) :
    Except String String × ProcessManagerState × List Action :=
  match lookupKey st.processes server_id with
  | none => (Except.error "MCP server not connected", st, [])
  | some w =>
    if !w.stdinWriteOk then
      (if (try_read_stderr w).data.isEmpty then
         Except.error "Failed to write to MCP server (process may have exited)"
       else Except.error ("MCP server error: " ++ try_read_stderr w), st, [])
    else if !w.stdinFlushOk then
      (Except.error "Failed to flush MCP server stdin", st, [])
    else
      match read_response_channel w.stderrMsg 0 w.channel with
      | Except.ok r =>
        (Except.ok r, ⟨insertKey (eraseKey st.processes server_id) server_id w, st.pids⟩, [])
      | Except.error e =>
        (Except.error e, ⟨eraseKey st.processes server_id, eraseKey st.pids server_id⟩,
         [Action.sigkillChild w.pid, Action.tryWaitChild w.pid, Action.dropWorker w.pid])

/-- plugin_manager.rs `plugin_invoke` (lines 773-814): the same take-out
protocol, except that the failure path only kills the child and reaps it —
the PID table is left untouched. -/
def plugin_invoke (st : ProcessManagerState) (plugin_id : String) (_request : String) :
    Except String String × ProcessManagerState × List Action :=
  match lookupKey st.processes plugin_id with
  | none => (Except.error "插件未运行", st, [])
  | some w =>
    if !w.stdinWriteOk then
      (Except.error "写入插件 stdin 失败", st, [])
    else if !w.stdinFlushOk then
      (Except.error "刷新插件 stdin 失败", st, [])
    else
      match read_plugin_response w.channel with
      | Except.ok r =>
        (Except.ok r, ⟨insertKey (eraseKey st.processes plugin_id) plugin_id w, st.pids⟩, [])
      | Except.error e =>
        (Except.error e, ⟨eraseKey st.processes plugin_id, st.pids⟩,
         [Action.sigkillChild w.pid, Action.tryWaitChild w.pid])

/-- The outcome of the OS interactions of one spawn attempt: whether `spawn`
succeeds, whether each standard stream is captured, and the resulting worker
handle (whose pid is the child's). -/
structure SpawnOutcome where
  spawnOk : Bool
  stdinCaptured : Bool
  stdoutCaptured : Bool
  stderrCaptured : Bool
  worker : Worker
  deriving DecidableEq

/-- mcp.rs `mcp_connect_stdio` (lines 242-341): validate the command, kill and
wait any existing worker under the id (direct `child.kill()` plus `wait`),
build the filtered environment, spawn, capture the three streams, then record
the pid and insert the new worker. -/
def mcp_connect_stdio (isAlnum : Char → Bool) (st : ProcessManagerState)
    (server_id command : String) (_args : List String)
    (env parentEnv : List (String × String)) (so : SpawnOutcome) :
    Except String Unit × ProcessManagerState × List Action :=
  match validate_command isAlnum command with
  | Except.error e => (Except.error e, st, [])
  | Except.ok () =>
    let killActs : List Action :=
      match lookupKey st.processes server_id with
      | some oldw => [Action.sigkillChild oldw.pid, Action.waitChild oldw.pid]
      | none => []
    let procs1 := eraseKey st.processes server_id
    let childEnv := build_child_env parentEnv env
    let acts := killActs ++ [Action.spawnChild childEnv]
    if !so.spawnOk then
      (Except.error "Failed to start MCP server", ⟨procs1, st.pids⟩, acts)
    else if !so.stdinCaptured then
      (Except.error "Failed to capture MCP server stdin", ⟨procs1, st.pids⟩, acts)
    else if !so.stdoutCaptured then
      (Except.error "Failed to capture MCP server stdout", ⟨procs1, st.pids⟩, acts)
    else if !so.stderrCaptured then
      (Except.error "Failed to capture MCP server stderr", ⟨procs1, st.pids⟩, acts)
    else
      (Except.ok (), ⟨insertKey procs1 server_id so.worker,
        insertKey st.pids server_id so.worker.pid⟩, acts)

/-- mcp.rs `mcp_disconnect` (lines 504-525): remove the pid and gracefully kill
its group if present, then remove and drop the registry entry if present; both
steps are best-effort and the command always returns unit success. -/
def mcp_disconnect (st : ProcessManagerState) (server_id : String)
    (exitsWithinGrace : Bool) :
    Except String Unit × ProcessManagerState × List Action :=
  let killActs : List Action :=
    match lookupKey st.pids server_id with
    | some pid => graceful_kill_process_group pid exitsWithinGrace
    | none => []
  let dropActs : List Action :=
    match lookupKey st.processes server_id with
    | some w => [Action.dropWorker w.pid]
    | none => []
  (Except.ok (), ⟨eraseKey st.processes server_id, eraseKey st.pids server_id⟩,
   killActs ++ dropActs)

/-- plugin_manager.rs `plugin_disable` (lines 722-737): the same two best-effort
steps via `kill_plugin`; always returns unit success. -/
def plugin_disable (st : ProcessManagerState) (plugin_id : String)
    (exitsWithinGrace : Bool) :
    Except String Unit × ProcessManagerState × List Action :=
  let killActs : List Action :=
    match lookupKey st.pids plugin_id with
    | some pid => kill_plugin pid exitsWithinGrace
    | none => []
  let dropActs : List Action :=
    match lookupKey st.processes plugin_id with
    | some w => [Action.dropWorker w.pid]
    | none => []
  (Except.ok (), ⟨eraseKey st.processes plugin_id, eraseKey st.pids plugin_id⟩,
   killActs ++ dropActs)

/-- plugin_manager.rs `plugin_list_running`: the ids currently in the registry
(the spec's `list_active_worker_ids`). -/
def plugin_list_running (st : ProcessManagerState) : List String :=
  st.processes.map Prod.fst

/-- Rust byte-slicing `&s[..n]`: the characters filling exactly `n` bytes, or
`none` when `n` is not a character boundary — the case in which the Rust slice
panics. -/
def byteTake (n : Nat) : List Char → Option (List Char)
  | [] => if n = 0 then some [] else none
  | c :: cs =>
    if n = 0 then some []
    else if utf8Size c ≤ n then (byteTake (n - utf8Size c) cs).map (fun t => c :: t)
    else none

/-- The characters at which the path-redaction skip of `sanitize_stderr` stops. -/
def isStopChar (c : Char) : Bool :=
  rustIsWhitespace c || c == Char.ofNat 58 || c == Char.ofNat 34 || c == Char.ofNat 39

/-- The skip-until-delimiter loop inside `sanitize_stderr`: consume the path
token, keeping the stopping character for the next iteration. -/
def skipToken : List Char → List Char
  | [] => []
  | c :: rest => if isStopChar c then c :: rest else skipToken rest

/-- The home-directory test of `sanitize_stderr`: take up to six characters
after the slash and test the two five-character markers. -/
def looksLikeHomePath (rest : List Char) : Bool :=
  let r := rest.take 6
  List.isPrefixOf "Users".data r || List.isPrefixOf "home/".data r

/-- The character loop of `sanitize_stderr` (mcp.rs lines 189-207): redact
home-directory path tokens, copying everything else. -/
def scrubGo : List Char → List Char
  | [] => []
  | c :: rest =>
    if c == '/' && looksLikeHomePath rest then
      "<path>".data ++ scrubGo (skipToken rest)
    else c :: scrubGo rest
termination_by l => l.length
decreasing_by
  · have h : ∀ l : List Char, (skipToken l).length ≤ l.length := by
      intro l
      induction l with
      | nil => simp [skipToken]
      | cons d ds ih =>
        by_cases hd : isStopChar d = true
        · simp [skipToken, hd]
        · simp only [skipToken, if_neg hd]
          exact Nat.le_succ_of_le ih
    simp only [List.length_cons]
    exact Nat.lt_succ_of_le (h rest)
  · simp only [List.length_cons]
    omega

/-- mcp.rs `sanitize_stderr` (lines 181-209) at the character level: truncate
to the first 500 bytes when longer, then scrub and trim.  The 500-byte slice of
the Rust source panics when byte 500 is not a character boundary; that case is
the `none` result here. -/
def sanitize_stderr (stderr_msg : List Char) : Option (List Char) :=
  if utf8Len stderr_msg > 500 then
    match byteTake 500 stderr_msg with
    | some truncated => some (trimChars (scrubGo truncated))
    | none => none
  else some (trimChars (scrubGo stderr_msg))

-- ---------------------------------------------------------------------------
-- Concrete states and streams used by counterexamples and witnesses
-- ---------------------------------------------------------------------------

/-- A worker whose next stdin write fails and whose stderr has nothing to read. -/
def wWriteFail : Worker := ⟨5, false, true, "", []⟩

/-- Registry and PID table holding only `wWriteFail` under id `w`. -/
def stWriteFail : ProcessManagerState := ⟨[("w", wWriteFail)], [("w", 5)]⟩

/-- A healthy worker whose channel delivers nothing before the timeout. -/
def wSilent : Worker := ⟨3, true, true, "", []⟩

/-- Registry and PID table holding only `wSilent` under id `w`. -/
def stSilent : ProcessManagerState := ⟨[("w", wSilent)], [("w", 3)]⟩

/-- A silent plugin worker, used against the plugin request path. -/
def wSilentPlugin : Worker := ⟨9, true, true, "", []⟩

/-- Plugin registry and PID table holding only `wSilentPlugin` under id `p`. -/
def stSilentPlugin : ProcessManagerState := ⟨[("p", wSilentPlugin)], [("p", 9)]⟩

/-- The worker replaced by a reconnect in the C3 scenario. -/
def wOld : Worker := ⟨7, true, true, "", []⟩

/-- State holding `wOld` under id `w` before the replacing connect. -/
def stOld : ProcessManagerState := ⟨[("w", wOld)], [("w", 7)]⟩

/-- The replacement worker spawned by the reconnect. -/
def wNew : Worker := ⟨8, true, true, "", []⟩

/-- A fully successful spawn of `wNew`. -/
def soNew : SpawnOutcome := ⟨true, true, true, true, wNew⟩

/-- A noise line: one delivered non-JSON, non-blank, in-bounds line. -/
def noiseEv : RecvOutcome := RecvOutcome.ok (ReadResult.line "x")

/-- A line one byte over the MCP size limit. -/
def bigLineMCP : String := String.mk (List.replicate 262145 (Char.ofNat 97))

/-- A line one byte over the plugin size limit. -/
def bigLinePlugin : String := String.mk (List.replicate 65537 (Char.ofNat 97))

/-- A JSON object line as the stub tests use it. -/
def jsonLine : String := "\x7b\"ok\":true\x7d"

/-- A worker whose channel delivers an oversized banner and then a JSON line. -/
def wBigBanner : Worker :=
  ⟨4, true, true, "", [RecvOutcome.ok (ReadResult.line bigLineMCP),
    RecvOutcome.ok (ReadResult.line jsonLine)]⟩

/-- State holding `wBigBanner` under id `w`. -/
def stBigBanner : ProcessManagerState := ⟨[("w", wBigBanner)], [("w", 4)]⟩

/-- A worker whose channel delivers a short banner, a blank line, then JSON. -/
def wBanner : Worker :=
  ⟨6, true, true, "", [RecvOutcome.ok (ReadResult.line "npm warn x"),
    RecvOutcome.ok (ReadResult.line ""), RecvOutcome.ok (ReadResult.line jsonLine)]⟩

/-- State holding `wBanner` under id `w`. -/
def stBanner : ProcessManagerState := ⟨[("w", wBanner)], [("w", 6)]⟩

-- ---------------------------------------------------------------------------
-- Theorems.  C8: the command validator
-- ---------------------------------------------------------------------------

theorem bad_char_iff (isAlnum : Char → Bool) (c : Char) :
    (!isAlnum c && c != '-' && c != '_' && c != '.') = true ↔
      ¬(isAlnum c = true ∨ c = '-' ∨ c = '_' ∨ c = '.') := by
  simp only [Bool.and_eq_true, Bool.not_eq_true', bne_iff_ne]
  constructor
  · rintro ⟨⟨⟨h1, h2⟩, h3⟩, h4⟩ (h | h | h | h)
    · rw [h] at h1; cases h1
    · exact h2 h
    · exact h3 h
    · exact h4 h
  · intro h
    refine ⟨⟨⟨?_, fun hh => h (Or.inr (Or.inl hh))⟩,
      fun hh => h (Or.inr (Or.inr (Or.inl hh)))⟩,
      fun hh => h (Or.inr (Or.inr (Or.inr hh)))⟩
    cases hb : isAlnum c
    · rfl
    · exact absurd (Or.inl hb) h

theorem validate_chars_ok_iff (isAlnum : Char → Bool) (l : List Char) :
    validate_chars isAlnum l = Except.ok () ↔
      ∀ c ∈ l, isAlnum c = true ∨ c = '-' ∨ c = '_' ∨ c = '.' := by
  induction l with
  | nil => simp [validate_chars]
  | cons c rest ih =>
    by_cases hc : (!isAlnum c && c != '-' && c != '_' && c != '.') = true
    · simp only [validate_chars]
      rw [if_pos hc]
      rw [bad_char_iff] at hc
      constructor
      · intro h; exact Except.noConfusion h
      · intro h; exact absurd (h c (List.mem_cons_self c rest)) hc
    · simp only [validate_chars]
      rw [if_neg hc]
      rw [bad_char_iff, not_not] at hc
      rw [ih]
      constructor
      · intro h d hd
        rcases List.mem_cons.mp hd with rfl | hd2
        · exact hc
        · exact h d hd2
      · intro h d hd
        exact h d (List.mem_cons_of_mem c hd)

theorem validate_chars_ok_or_error (isAlnum : Char → Bool) (l : List Char) :
    validate_chars isAlnum l = Except.ok () ∨
      validate_chars isAlnum l = Except.error
        "Invalid command: must be a simple executable name" := by
  induction l with
  | nil => exact Or.inl rfl
  | cons c rest ih =>
    by_cases hc : (!isAlnum c && c != '-' && c != '_' && c != '.') = true
    · refine Or.inr ?_
      simp only [validate_chars]
      rw [if_pos hc]
    · simp only [validate_chars]
      rw [if_neg hc]
      exact ih

/-- C8: the command validator accepts exactly the non-empty strings whose every
character is alphanumeric (per the supplied classifier, standing for Rust
`char::is_alphanumeric`) or one of the three token characters, and every
rejection is one of the two invalid-command errors.  In particular a path
separator or shell metacharacter, being none of these, is rejected. -/
theorem validate_command_accepts_exactly_tokens (isAlnum : Char → Bool) (command : String) :
    (validate_command isAlnum command = Except.ok () ↔
      command.data ≠ [] ∧
        ∀ c ∈ command.data, isAlnum c = true ∨ c = '-' ∨ c = '_' ∨ c = '.') ∧
    (validate_command isAlnum command = Except.ok () ∨
      validate_command isAlnum command = Except.error "Command must not be empty" ∨
      validate_command isAlnum command = Except.error
        "Invalid command: must be a simple executable name") := by
  by_cases he : command.data = []
  · have he2 : command.data.isEmpty = true := by simp [he]
    constructor
    · rw [validate_command, if_pos he2]
      constructor
      · intro h; exact Except.noConfusion h
      · intro h; exact absurd he h.1
    · exact Or.inr (Or.inl (by rw [validate_command, if_pos he2]))
  · have he2 : ¬(command.data.isEmpty = true) := by simpa using he
    constructor
    · rw [validate_command, if_neg he2, validate_chars_ok_iff]
      simp [he]
    · rw [validate_command, if_neg he2]
      rcases validate_chars_ok_or_error isAlnum command.data with h | h
      · exact Or.inl h
      · exact Or.inr (Or.inr h)

-- ---------------------------------------------------------------------------
-- C6: the child environment
-- ---------------------------------------------------------------------------

theorem mem_envSet {m : List (String × String)} {k v : String} {kv : String × String}
    (h : kv ∈ envSet m k v) : kv = (k, v) ∨ kv ∈ m := by
  rcases List.mem_cons.mp h with h1 | h1
  · exact Or.inl h1
  · exact Or.inr (List.mem_of_mem_filter h1)

theorem env_foldl_safe (l : List (String × String)) :
    ∀ acc : List (String × String),
      (∀ kv ∈ acc, is_safe_env_var kv.1 = true) →
      ∀ kv ∈ l.foldl
        (fun acc kv => if is_safe_env_var kv.1 then envSet acc kv.1 kv.2 else acc) acc,
        is_safe_env_var kv.1 = true := by
  induction l with
  | nil => intro acc hacc kv hkv; exact hacc kv hkv
  | cons p rest ih =>
    intro acc hacc kv hkv
    simp only [List.foldl_cons] at hkv
    by_cases hp : is_safe_env_var p.1 = true
    · refine ih (envSet acc p.1 p.2) ?_ kv (by simpa [hp] using hkv)
      intro kv2 hkv2
      rcases mem_envSet hkv2 with rfl | h2
      · exact hp
      · exact hacc kv2 h2
    · refine ih acc hacc kv ?_
      simpa [hp] using hkv

/-- Counterexample to C6 as stated: the environment built for an MCP child
always contains the variable `npm_config_userconfig`, whose name starts with
the blocked pattern `npm_config_`. -/
theorem npm_config_userconfig_cex :
    lookupKey (build_child_env [] []) "npm_config_userconfig" = some "/dev/null" ∧
    is_safe_env_var "npm_config_userconfig" = false := by
  decide

/-- C6 (amended): every variable of the environment built for a spawned MCP
child either has a safe name (no blocked pattern matches it) or is the single
hard-coded `npm_config_userconfig` override that `mcp_connect_stdio` adds after
filtering; in particular every caller-supplied override with a blocked name is
dropped. -/
theorem child_env_safe_except_userconfig
    (parent overrides : List (String × String)) (kv : String × String)
    (hmem : kv ∈ build_child_env parent overrides) :
    is_safe_env_var kv.1 = true ∨ kv.1 = "npm_config_userconfig" := by
  unfold build_child_env at hmem
  rcases mem_envSet hmem with rfl | h2
  · exact Or.inr rfl
  · exact Or.inl (env_foldl_safe overrides _ (env_foldl_safe parent [] (by simp)) kv h2)

theorem child_env_safe_except_userconfig_witness :
    ("PATH", "/usr/bin") ∈
        build_child_env [("LD_PRELOAD", "evil.so"), ("PATH", "/usr/bin")]
          [("NPM_TOKEN", "t")] ∧
      (is_safe_env_var "PATH" = true ∨ "PATH" = "npm_config_userconfig") :=
  ⟨by decide,
   child_env_safe_except_userconfig
     [("LD_PRELOAD", "evil.so"), ("PATH", "/usr/bin")] [("NPM_TOKEN", "t")]
     ("PATH", "/usr/bin") (by decide)⟩

-- ---------------------------------------------------------------------------
-- Association-list lemmas
-- ---------------------------------------------------------------------------

theorem lookupKey_eraseKey_self {α : Type} (m : List (String × α)) (k : String) :
    lookupKey (eraseKey m k) k = none := by
  induction m with
  | nil => rfl
  | cons p rest ih =>
    obtain ⟨k2, v⟩ := p
    by_cases hp : k2 = k
    · subst hp
      simpa [eraseKey, List.filter_cons] using ih
    · have hne : ((k2, v).1 != k) = true := by simpa using hp
      have hne2 : (k2 == k) = false := by simpa using hp
      simp only [eraseKey, List.filter_cons] at ih ⊢
      rw [if_pos hne, lookupKey, hne2]
      simpa using ih

theorem not_mem_keys_eraseKey {α : Type} (m : List (String × α)) (k : String) :
    k ∉ (eraseKey m k).map Prod.fst := by
  intro h
  rcases List.mem_map.mp h with ⟨e, he, hk⟩
  rcases List.mem_filter.mp he with ⟨_, hne⟩
  rw [hk] at hne
  simp at hne

-- ---------------------------------------------------------------------------
-- Read-loop lemmas
-- ---------------------------------------------------------------------------

theorem read_response_channel_nil (sm : String) (its : Nat) :
    read_response_channel sm its [] =
      if its + 1 > MAX_READ_ITERATIONS then Except.error "MCP response exceeded iteration limit"
      else Except.error "MCP response timeout" := rfl

theorem read_response_channel_line (sm : String) (its : Nat) (s : String)
    (rest : List RecvOutcome) :
    read_response_channel sm its (RecvOutcome.ok (ReadResult.line s) :: rest) =
      if its + 1 > MAX_READ_ITERATIONS then Except.error "MCP response exceeded iteration limit"
      else if utf8Len s.data > MAX_LINE_LENGTH then
        Except.error "MCP response line exceeded size limit"
      else if (trimChars s.data).isEmpty then read_response_channel sm (its + 1) rest
      else if headIsLbrace (trimChars s.data) then Except.ok (String.mk (trimChars s.data))
      else read_response_channel sm (its + 1) rest := rfl

theorem read_response_channel_iter_stop (sm : String) (its : Nat) (evs : List RecvOutcome)
    (h : its + 1 > MAX_READ_ITERATIONS) :
    read_response_channel sm its evs = Except.error "MCP response exceeded iteration limit" := by
  unfold read_response_channel
  rw [if_pos h]

theorem read_plugin_response_line (s : String) (rest : List RecvOutcome) :
    read_plugin_response (RecvOutcome.ok (ReadResult.line s) :: rest) =
      if utf8Len s.data > PLUGIN_MAX_LINE then Except.error "插件响应超过长度限制"
      else if (trimChars s.data).isEmpty then read_plugin_response rest
      else if headIsLbrace (trimChars s.data) then Except.ok (String.mk (trimChars s.data))
      else read_plugin_response rest := rfl

theorem read_response_noise_step (sm : String) (its : Nat) {e : RecvOutcome}
    (rest : List RecvOutcome) (hn : isNoiseLine MAX_LINE_LENGTH e = true)
    (hit : its + 1 ≤ MAX_READ_ITERATIONS) :
    read_response_channel sm its (e :: rest) = read_response_channel sm (its + 1) rest := by
  match e with
  | RecvOutcome.ok (ReadResult.line s) =>
    simp only [isNoiseLine, Bool.and_eq_true, decide_eq_true_eq, Bool.or_eq_true] at hn
    obtain ⟨hlen, hnoise⟩ := hn
    rw [read_response_channel_line, if_neg (by omega), if_neg (by omega)]
    rcases hnoise with hb | hb
    · rw [if_pos hb]
    · have hfalse : headIsLbrace (trimChars s.data) = false := by simpa using hb
      by_cases he : (trimChars s.data).isEmpty = true
      · rw [if_pos he]
      · rw [if_neg he, if_neg (by simp [hfalse])]
  | RecvOutcome.ok ReadResult.eof => simp [isNoiseLine] at hn
  | RecvOutcome.ok (ReadResult.error e2) => simp [isNoiseLine] at hn
  | RecvOutcome.timeout => simp [isNoiseLine] at hn
  | RecvOutcome.disconnected => simp [isNoiseLine] at hn

theorem read_response_skip_noise (sm : String) :
    ∀ (pre : List RecvOutcome) (its : Nat) (evs : List RecvOutcome),
      (∀ e ∈ pre, isNoiseLine MAX_LINE_LENGTH e = true) →
      its + pre.length ≤ MAX_READ_ITERATIONS →
      read_response_channel sm its (pre ++ evs) =
        read_response_channel sm (its + pre.length) evs := by
  intro pre
  induction pre with
  | nil => intro its evs _ _; simp
  | cons e tail ih =>
    intro its evs hpre hlen
    simp only [List.length_cons] at hlen
    rw [List.cons_append]
    rw [read_response_noise_step sm its (tail ++ evs)
      (hpre e (List.mem_cons_self e tail)) (by omega)]
    rw [ih (its + 1) evs (fun x hx => hpre x (List.mem_cons_of_mem e hx)) (by omega)]
    congr 1
    simp only [List.length_cons]
    omega

theorem read_response_iter_limit (sm : String) :
    ∀ (evs : List RecvOutcome) (its : Nat),
      (∀ e ∈ evs, isNoiseLine MAX_LINE_LENGTH e = true) →
      MAX_READ_ITERATIONS ≤ its + evs.length →
      read_response_channel sm its evs =
        Except.error "MCP response exceeded iteration limit" := by
  intro evs
  induction evs with
  | nil =>
    intro its _ hl
    simp only [List.length_nil, Nat.add_zero] at hl
    rw [read_response_channel_nil, if_pos (by omega)]
  | cons e tail ih =>
    intro its hn hl
    simp only [List.length_cons] at hl
    by_cases hit : its + 1 > MAX_READ_ITERATIONS
    · exact read_response_channel_iter_stop sm its _ hit
    · rw [read_response_noise_step sm its tail (hn e (List.mem_cons_self e tail)) (by omega)]
      exact ih (its + 1) (fun x hx => hn x (List.mem_cons_of_mem e hx)) (by omega)

theorem read_response_oversize (sm : String) (its : Nat) (s : String) (rest : List RecvOutcome)
    (hit : its + 1 ≤ MAX_READ_ITERATIONS) (hs : utf8Len s.data > MAX_LINE_LENGTH) :
    read_response_channel sm its (RecvOutcome.ok (ReadResult.line s) :: rest) =
      Except.error "MCP response line exceeded size limit" := by
  rw [read_response_channel_line, if_neg (by omega), if_pos hs]

theorem read_response_json (sm : String) (its : Nat) (s : String) (rest : List RecvOutcome)
    (hit : its + 1 ≤ MAX_READ_ITERATIONS) (hs : utf8Len s.data ≤ MAX_LINE_LENGTH)
    (hj : headIsLbrace (trimChars s.data) = true) :
    read_response_channel sm its (RecvOutcome.ok (ReadResult.line s) :: rest) =
      Except.ok (String.mk (trimChars s.data)) := by
  have hne : (trimChars s.data).isEmpty = false := by
    cases ht : trimChars s.data
    · rw [ht] at hj; exact absurd hj (by decide)
    · rfl
  rw [read_response_channel_line, if_neg (by omega), if_neg (by omega),
    if_neg (by simp [hne]), if_pos hj]

theorem read_plugin_noise_step {e : RecvOutcome} (rest : List RecvOutcome)
    (hn : isNoiseLine PLUGIN_MAX_LINE e = true) :
    read_plugin_response (e :: rest) = read_plugin_response rest := by
  match e with
  | RecvOutcome.ok (ReadResult.line s) =>
    simp only [isNoiseLine, Bool.and_eq_true, decide_eq_true_eq, Bool.or_eq_true] at hn
    obtain ⟨hlen, hnoise⟩ := hn
    rw [read_plugin_response_line, if_neg (by omega)]
    rcases hnoise with hb | hb
    · rw [if_pos hb]
    · have hfalse : headIsLbrace (trimChars s.data) = false := by simpa using hb
      by_cases he : (trimChars s.data).isEmpty = true
      · rw [if_pos he]
      · rw [if_neg he, if_neg (by simp [hfalse])]
  | RecvOutcome.ok ReadResult.eof => simp [isNoiseLine] at hn
  | RecvOutcome.ok (ReadResult.error e2) => simp [isNoiseLine] at hn
  | RecvOutcome.timeout => simp [isNoiseLine] at hn
  | RecvOutcome.disconnected => simp [isNoiseLine] at hn

theorem read_plugin_all_noise :
    ∀ evs : List RecvOutcome,
      (∀ e ∈ evs, isNoiseLine PLUGIN_MAX_LINE e = true) →
      read_plugin_response evs = Except.error "插件响应超时" := by
  intro evs
  induction evs with
  | nil => intro _; rfl
  | cons e tail ih =>
    intro hn
    rw [read_plugin_noise_step tail (hn e (List.mem_cons_self e tail))]
    exact ih (fun x hx => hn x (List.mem_cons_of_mem e hx))

theorem read_plugin_oversize (s : String) (rest : List RecvOutcome)
    (hs : utf8Len s.data > PLUGIN_MAX_LINE) :
    read_plugin_response (RecvOutcome.ok (ReadResult.line s) :: rest) =
      Except.error "插件响应超过长度限制" := by
  rw [read_plugin_response_line, if_pos hs]

-- ---------------------------------------------------------------------------
-- UTF-8 length lemmas
-- ---------------------------------------------------------------------------

theorem utf8Len_append (l1 l2 : List Char) :
    utf8Len (l1 ++ l2) = utf8Len l1 + utf8Len l2 := by
  simp [utf8Len]

theorem utf8Len_replicate (n : Nat) (c : Char) :
    utf8Len (List.replicate n c) = n * utf8Size c := by
  induction n with
  | zero => simp [utf8Len]
  | succ k ih =>
    simp only [List.replicate_succ, utf8Len, List.map_cons, List.sum_cons] at ih ⊢
    rw [ih]
    ring

theorem utf8Len_bigLineMCP : utf8Len bigLineMCP.data = 262145 := by
  show utf8Len (List.replicate 262145 (Char.ofNat 97)) = 262145
  rw [utf8Len_replicate]
  rw [show utf8Size (Char.ofNat 97) = 1 from by decide]

theorem utf8Len_bigLinePlugin : utf8Len bigLinePlugin.data = 65537 := by
  show utf8Len (List.replicate 65537 (Char.ofNat 97)) = 65537
  rw [utf8Len_replicate]
  rw [show utf8Size (Char.ofNat 97) = 1 from by decide]

-- ---------------------------------------------------------------------------
-- C2: the two read-loop bounds
-- ---------------------------------------------------------------------------

/-- Counterexample to C2 as stated: fed strictly more noise lines than the
configured maximum skipped-line count, the plugin read loop never gives up with
an iteration-limit error — it consumes all of them and only then reports the
timeout of the next receive — whereas the MCP loop on the same stream stops at
the limit. -/
theorem plugin_loop_lacks_iteration_limit_cex :
    read_plugin_response (List.replicate 1001 noiseEv) = Except.error "插件响应超时" ∧
    read_response_channel "" 0 (List.replicate 1001 noiseEv) =
      Except.error "MCP response exceeded iteration limit" := by
  constructor
  · refine read_plugin_all_noise _ ?_
    intro e he
    rw [List.eq_of_mem_replicate he]
    decide
  · refine read_response_iter_limit "" _ 0 ?_ ?_
    · intro e he
      rw [List.eq_of_mem_replicate he]
      decide
    · simp only [List.length_replicate]
      decide

/-- C2 (amended): the MCP read loop enforces both bounds — an in-budget
received line over the size limit fails with the size-limit error, and a stream
of at least `MAX_READ_ITERATIONS` noise lines fails with the iteration-limit
error — while the plugin read loop enforces only the line-length bound: it
skips any number of noise lines and, absent data, fails only with the
per-receive timeout, never an iteration-limit error. -/
theorem response_read_bounds_enforced
    (sm : String) (pre : List RecvOutcome) (s : String) (rest : List RecvOutcome)
    (evs : List RecvOutcome) (t : String) (restP evsP : List RecvOutcome)
    (hpre : ∀ e ∈ pre, isNoiseLine MAX_LINE_LENGTH e = true)
    (hpreLen : pre.length + 1 ≤ MAX_READ_ITERATIONS)
    (hs : utf8Len s.data > MAX_LINE_LENGTH)
    (hevs : ∀ e ∈ evs, isNoiseLine MAX_LINE_LENGTH e = true)
    (hevsLen : MAX_READ_ITERATIONS ≤ evs.length)
    (ht : utf8Len t.data > PLUGIN_MAX_LINE)
    (hevsP : ∀ e ∈ evsP, isNoiseLine PLUGIN_MAX_LINE e = true) :
    read_response_channel sm 0 (pre ++ RecvOutcome.ok (ReadResult.line s) :: rest) =
        Except.error "MCP response line exceeded size limit" ∧
      read_response_channel sm 0 evs = Except.error "MCP response exceeded iteration limit" ∧
      read_plugin_response (RecvOutcome.ok (ReadResult.line t) :: restP) =
        Except.error "插件响应超过长度限制" ∧
      read_plugin_response evsP = Except.error "插件响应超时" := by
  refine ⟨?_, ?_, ?_, ?_⟩
  · rw [read_response_skip_noise sm pre 0 _ hpre (by omega)]
    exact read_response_oversize sm (0 + pre.length) s rest (by omega) hs
  · exact read_response_iter_limit sm evs 0 hevs (by omega)
  · exact read_plugin_oversize t restP ht
  · exact read_plugin_all_noise evsP hevsP

theorem response_read_bounds_enforced_witness :
    (∀ e ∈ ([] : List RecvOutcome), isNoiseLine MAX_LINE_LENGTH e = true) ∧
    ([] : List RecvOutcome).length + 1 ≤ MAX_READ_ITERATIONS ∧
    utf8Len bigLineMCP.data > MAX_LINE_LENGTH ∧
    (∀ e ∈ List.replicate 1000 noiseEv, isNoiseLine MAX_LINE_LENGTH e = true) ∧
    MAX_READ_ITERATIONS ≤ (List.replicate 1000 noiseEv).length ∧
    utf8Len bigLinePlugin.data > PLUGIN_MAX_LINE ∧
    (∀ e ∈ [noiseEv], isNoiseLine PLUGIN_MAX_LINE e = true) ∧
    (read_response_channel "" 0
        ([] ++ RecvOutcome.ok (ReadResult.line bigLineMCP) :: []) =
          Except.error "MCP response line exceeded size limit" ∧
      read_response_channel "" 0 (List.replicate 1000 noiseEv) =
        Except.error "MCP response exceeded iteration limit" ∧
      read_plugin_response (RecvOutcome.ok (ReadResult.line bigLinePlugin) :: []) =
        Except.error "插件响应超过长度限制" ∧
      read_plugin_response [noiseEv] = Except.error "插件响应超时") :=
  ⟨by decide, by decide, by rw [utf8Len_bigLineMCP]; decide,
   by intro e he; rw [List.eq_of_mem_replicate he]; decide,
   by simp only [List.length_replicate]; decide,
   by rw [utf8Len_bigLinePlugin]; decide,
   by decide,
   response_read_bounds_enforced "" [] bigLineMCP [] (List.replicate 1000 noiseEv)
     bigLinePlugin [] [noiseEv]
     (by decide) (by decide) (by rw [utf8Len_bigLineMCP]; decide)
     (by intro e he; rw [List.eq_of_mem_replicate he]; decide)
     (by simp only [List.length_replicate]; decide)
     (by rw [utf8Len_bigLinePlugin]; decide)
     (by decide)⟩

theorem lookupKey_insertKey_self {α : Type} (m : List (String × α)) (k : String) (v : α) :
    lookupKey (insertKey m k v) k = some v := by
  simp [insertKey, lookupKey]

-- ---------------------------------------------------------------------------
-- C7: banner tolerance of the response path
-- ---------------------------------------------------------------------------

/-- Counterexample to C7 as stated: a banner line longer than the configured
maximum is turned into the size-limit error rather than being skipped, even
though a JSON line follows it. -/
theorem oversized_banner_cex :
    (mcp_send_request stBigBanner "w" "req").1 =
      Except.error "MCP response line exceeded size limit" := by
  have hw : lookupKey stBigBanner.processes "w" = some wBigBanner := rfl
  have hwt : wBigBanner.stdinWriteOk = true := rfl
  have hft : wBigBanner.stdinFlushOk = true := rfl
  have hloop : read_response_channel wBigBanner.stderrMsg 0 wBigBanner.channel =
      Except.error "MCP response line exceeded size limit" :=
    read_response_oversize "" 0 bigLineMCP [RecvOutcome.ok (ReadResult.line jsonLine)]
      (by decide) (by rw [utf8Len_bigLineMCP]; decide)
  simp [mcp_send_request, hw, hwt, hft, hloop]

/-- C7 (amended): if the reader channel delivers a banner line (non-empty
trimmed, not starting with an opening brace, within the size limit), then blank
lines (within the size limit), then a JSON line within the size limit, and at
most the iteration budget of lines is consumed, then `mcp_send_request` skips
the banner and blanks and returns the trimmed JSON line; a banner beyond the
size limit instead fails with the size-limit error. -/
theorem banner_skipped_json_returned
    (st : ProcessManagerState) (id req banner json : String) (blanks : List String)
    (rest : List RecvOutcome) (w : Worker)
    (hw : lookupKey st.processes id = some w)
    (hwrite : w.stdinWriteOk = true) (hflush : w.stdinFlushOk = true)
    (hchan : w.channel = RecvOutcome.ok (ReadResult.line banner) ::
      (blanks.map (fun b => RecvOutcome.ok (ReadResult.line b)) ++
        RecvOutcome.ok (ReadResult.line json) :: rest))
    (hbLen : utf8Len banner.data ≤ MAX_LINE_LENGTH)
    (hbNe : (trimChars banner.data).isEmpty = false)
    (hbNj : headIsLbrace (trimChars banner.data) = false)
    (hblanks : ∀ b ∈ blanks, utf8Len b.data ≤ MAX_LINE_LENGTH ∧ trimChars b.data = [])
    (hjLen : utf8Len json.data ≤ MAX_LINE_LENGTH)
    (hj : headIsLbrace (trimChars json.data) = true)
    (hcount : blanks.length + 2 ≤ MAX_READ_ITERATIONS) :
    (mcp_send_request st id req).1 = Except.ok (String.mk (trimChars json.data)) := by
  have hbanner : isNoiseLine MAX_LINE_LENGTH (RecvOutcome.ok (ReadResult.line banner)) = true := by
    simp [isNoiseLine, hbLen, hbNj]
  have hnoiseblanks : ∀ e ∈ blanks.map (fun b => RecvOutcome.ok (ReadResult.line b)),
      isNoiseLine MAX_LINE_LENGTH e = true := by
    intro e he
    obtain ⟨b, hb, rfl⟩ := List.mem_map.mp he
    have h1 := (hblanks b hb).1
    have h2 := (hblanks b hb).2
    simp [isNoiseLine, h1, h2]
  have hloop : read_response_channel w.stderrMsg 0 w.channel =
      Except.ok (String.mk (trimChars json.data)) := by
    rw [hchan]
    rw [read_response_noise_step w.stderrMsg 0 _ hbanner (by omega)]
    rw [read_response_skip_noise w.stderrMsg _ (0 + 1) _ hnoiseblanks
      (by simp only [List.length_map]; omega)]
    refine read_response_json w.stderrMsg _ json rest ?_ hjLen hj
    simp only [List.length_map]
    omega
  simp [mcp_send_request, hw, hwrite, hflush, hloop]

theorem banner_skipped_json_returned_witness :
    lookupKey stBanner.processes "w" = some wBanner ∧
    wBanner.stdinWriteOk = true ∧ wBanner.stdinFlushOk = true ∧
    wBanner.channel = RecvOutcome.ok (ReadResult.line "npm warn x") ::
      ([""].map (fun b => RecvOutcome.ok (ReadResult.line b)) ++
        RecvOutcome.ok (ReadResult.line jsonLine) :: []) ∧
    utf8Len "npm warn x".data ≤ MAX_LINE_LENGTH ∧
    (trimChars "npm warn x".data).isEmpty = false ∧
    headIsLbrace (trimChars "npm warn x".data) = false ∧
    (∀ b ∈ [""], utf8Len b.data ≤ MAX_LINE_LENGTH ∧ trimChars b.data = []) ∧
    utf8Len jsonLine.data ≤ MAX_LINE_LENGTH ∧
    headIsLbrace (trimChars jsonLine.data) = true ∧
    ([""].length + 2 ≤ MAX_READ_ITERATIONS) ∧
    (mcp_send_request stBanner "w" "req").1 = Except.ok (String.mk (trimChars jsonLine.data)) :=
  ⟨by decide, by decide, by decide, by decide, by decide, by decide, by decide,
   by decide, by decide, by decide, by decide,
   banner_skipped_json_returned stBanner "w" "req" "npm warn x" jsonLine [""] [] wBanner
     (by decide) (by decide) (by decide) (by decide) (by decide) (by decide) (by decide)
     (by decide) (by decide) (by decide) (by decide)⟩

-- ---------------------------------------------------------------------------
-- C1: write failure during send_request
-- ---------------------------------------------------------------------------

/-- Counterexample to C1 as stated: after a failed stdin write the call fails
with the write-failure error, but the worker entry is still resident in the
registry (and in the PID table) — the entry is not removed. -/
theorem write_failure_keeps_registry_entry_cex :
    (mcp_send_request stWriteFail "w" "ping").1 =
        Except.error "Failed to write to MCP server (process may have exited)" ∧
      lookupKey (mcp_send_request stWriteFail "w" "ping").2.1.processes "w" = some wWriteFail ∧
      lookupKey (mcp_send_request stWriteFail "w" "ping").2.1.pids "w" = some 5 := by
  decide

/-- C1 (amended): a failed write or flush of the request line fails the call
with the corresponding write-failure error and leaves the state unchanged —
the worker entry stays resident in the registry for later calls; teardown
happens only on failures after the worker has been checked out. -/
theorem write_failure_leaves_worker_resident
    (st : ProcessManagerState) (id req : String) (w : Worker)
    (h : lookupKey st.processes id = some w)
    (hfail : w.stdinWriteOk = false ∨ (w.stdinWriteOk = true ∧ w.stdinFlushOk = false)) :
    ((mcp_send_request st id req).1 =
        Except.error "Failed to write to MCP server (process may have exited)" ∨
      (mcp_send_request st id req).1 =
        Except.error ("MCP server error: " ++ try_read_stderr w) ∨
      (mcp_send_request st id req).1 = Except.error "Failed to flush MCP server stdin") ∧
    (mcp_send_request st id req).2.1 = st ∧
    lookupKey (mcp_send_request st id req).2.1.processes id = some w ∧
    (mcp_send_request st id req).2.2 = [] := by
  rcases hfail with hw | ⟨hw, hf⟩
  · have heq : mcp_send_request st id req =
        ((if (try_read_stderr w).data.isEmpty then
            Except.error "Failed to write to MCP server (process may have exited)"
          else Except.error ("MCP server error: " ++ try_read_stderr w)), st, []) := by
      simp [mcp_send_request, h, hw]
    rw [heq]
    by_cases hemp : (try_read_stderr w).data.isEmpty = true
    · rw [if_pos hemp]
      exact ⟨Or.inl rfl, rfl, h, rfl⟩
    · rw [if_neg hemp]
      exact ⟨Or.inr (Or.inl rfl), rfl, h, rfl⟩
  · have heq : mcp_send_request st id req =
        (Except.error "Failed to flush MCP server stdin", st, []) := by
      simp [mcp_send_request, h, hw, hf]
    rw [heq]
    exact ⟨Or.inr (Or.inr rfl), rfl, h, rfl⟩

theorem write_failure_leaves_worker_resident_witness :
    lookupKey stWriteFail.processes "w" = some wWriteFail ∧
    (wWriteFail.stdinWriteOk = false ∨
      (wWriteFail.stdinWriteOk = true ∧ wWriteFail.stdinFlushOk = false)) ∧
    (((mcp_send_request stWriteFail "w" "ping").1 =
        Except.error "Failed to write to MCP server (process may have exited)" ∨
      (mcp_send_request stWriteFail "w" "ping").1 =
        Except.error ("MCP server error: " ++ try_read_stderr wWriteFail) ∨
      (mcp_send_request stWriteFail "w" "ping").1 =
        Except.error "Failed to flush MCP server stdin") ∧
    (mcp_send_request stWriteFail "w" "ping").2.1 = stWriteFail ∧
    lookupKey (mcp_send_request stWriteFail "w" "ping").2.1.processes "w" = some wWriteFail ∧
    (mcp_send_request stWriteFail "w" "ping").2.2 = []) :=
  ⟨by decide, by decide,
   write_failure_leaves_worker_resident stWriteFail "w" "ping" wWriteFail
     (by decide) (by decide)⟩

-- ---------------------------------------------------------------------------
-- C5: response timeout tears the worker down
-- ---------------------------------------------------------------------------

/-- C5 (confirmed): when the reader channel of a healthy worker delivers
nothing within the read timeout, `mcp_send_request` fails with the
response-timeout error and the worker is torn down: it is absent from the
registry (not listed among running ids) and its PID-table entry is removed
rather than re-inserted. -/
theorem timeout_tears_down_worker
    (st : ProcessManagerState) (id req : String) (w : Worker)
    (h : lookupKey st.processes id = some w)
    (hw : w.stdinWriteOk = true) (hf : w.stdinFlushOk = true)
    (hch : w.channel = []) :
    (mcp_send_request st id req).1 = Except.error "MCP response timeout" ∧
    lookupKey (mcp_send_request st id req).2.1.processes id = none ∧
    lookupKey (mcp_send_request st id req).2.1.pids id = none ∧
    id ∉ plugin_list_running (mcp_send_request st id req).2.1 := by
  have hloop : read_response_channel w.stderrMsg 0 w.channel =
      Except.error "MCP response timeout" := by
    rw [hch, read_response_channel_nil, if_neg (by decide)]
  have heq : mcp_send_request st id req =
      (Except.error "MCP response timeout",
       ⟨eraseKey st.processes id, eraseKey st.pids id⟩,
       [Action.sigkillChild w.pid, Action.tryWaitChild w.pid, Action.dropWorker w.pid]) := by
    simp [mcp_send_request, h, hw, hf, hloop]
  rw [heq]
  exact ⟨rfl, lookupKey_eraseKey_self _ _, lookupKey_eraseKey_self _ _,
    not_mem_keys_eraseKey _ _⟩

theorem timeout_tears_down_worker_witness :
    lookupKey stSilent.processes "w" = some wSilent ∧
    wSilent.stdinWriteOk = true ∧ wSilent.stdinFlushOk = true ∧ wSilent.channel = [] ∧
    ((mcp_send_request stSilent "w" "req").1 = Except.error "MCP response timeout" ∧
      lookupKey (mcp_send_request stSilent "w" "req").2.1.processes "w" = none ∧
      lookupKey (mcp_send_request stSilent "w" "req").2.1.pids "w" = none ∧
      "w" ∉ plugin_list_running (mcp_send_request stSilent "w" "req").2.1) :=
  ⟨by decide, by decide, by decide, by decide,
   timeout_tears_down_worker stSilent "w" "req" wSilent
     (by decide) (by decide) (by decide) (by decide)⟩

-- ---------------------------------------------------------------------------
-- C4: PID-table removal on request failure
-- ---------------------------------------------------------------------------

/-- Counterexample to C4 as stated: a failing plugin request destroys the
checked-out worker (killed and removed from the registry) yet leaves its
PID-table entry behind. -/
theorem plugin_failure_keeps_pid_entry_cex :
    (plugin_invoke stSilentPlugin "p" "req").1 = Except.error "插件响应超时" ∧
    lookupKey (plugin_invoke stSilentPlugin "p" "req").2.1.processes "p" = none ∧
    lookupKey (plugin_invoke stSilentPlugin "p" "req").2.1.pids "p" = some 9 := by
  decide

/-- C4 (amended): when the checked-out read phase fails, the MCP request path
removes the worker's PID-table entry together with the registry entry, but the
plugin request path, while destroying the worker, leaves the PID table
untouched — the stale entry is removed only by a later disable or uninstall. -/
theorem pid_removal_mcp_only
    (stM stP : ProcessManagerState) (idM idP reqM reqP eM eP : String)
    (wM wP : Worker)
    (hM : lookupKey stM.processes idM = some wM)
    (hMw : wM.stdinWriteOk = true) (hMf : wM.stdinFlushOk = true)
    (hMe : read_response_channel wM.stderrMsg 0 wM.channel = Except.error eM)
    (hP : lookupKey stP.processes idP = some wP)
    (hPw : wP.stdinWriteOk = true) (hPf : wP.stdinFlushOk = true)
    (hPe : read_plugin_response wP.channel = Except.error eP) :
    lookupKey (mcp_send_request stM idM reqM).2.1.processes idM = none ∧
    lookupKey (mcp_send_request stM idM reqM).2.1.pids idM = none ∧
    lookupKey (plugin_invoke stP idP reqP).2.1.processes idP = none ∧
    (plugin_invoke stP idP reqP).2.1.pids = stP.pids := by
  have heqM : mcp_send_request stM idM reqM =
      (Except.error eM, ⟨eraseKey stM.processes idM, eraseKey stM.pids idM⟩,
       [Action.sigkillChild wM.pid, Action.tryWaitChild wM.pid, Action.dropWorker wM.pid]) := by
    simp [mcp_send_request, hM, hMw, hMf, hMe]
  have heqP : plugin_invoke stP idP reqP =
      (Except.error eP, ⟨eraseKey stP.processes idP, stP.pids⟩,
       [Action.sigkillChild wP.pid, Action.tryWaitChild wP.pid]) := by
    simp [plugin_invoke, hP, hPw, hPf, hPe]
  rw [heqM, heqP]
  exact ⟨lookupKey_eraseKey_self _ _, lookupKey_eraseKey_self _ _,
    lookupKey_eraseKey_self _ _, rfl⟩

theorem pid_removal_mcp_only_witness :
    lookupKey stSilent.processes "w" = some wSilent ∧
    wSilent.stdinWriteOk = true ∧ wSilent.stdinFlushOk = true ∧
    read_response_channel wSilent.stderrMsg 0 wSilent.channel =
      Except.error "MCP response timeout" ∧
    lookupKey stSilentPlugin.processes "p" = some wSilentPlugin ∧
    wSilentPlugin.stdinWriteOk = true ∧ wSilentPlugin.stdinFlushOk = true ∧
    read_plugin_response wSilentPlugin.channel = Except.error "插件响应超时" ∧
    (lookupKey (mcp_send_request stSilent "w" "r").2.1.processes "w" = none ∧
      lookupKey (mcp_send_request stSilent "w" "r").2.1.pids "w" = none ∧
      lookupKey (plugin_invoke stSilentPlugin "p" "r").2.1.processes "p" = none ∧
      (plugin_invoke stSilentPlugin "p" "r").2.1.pids = stSilentPlugin.pids) :=
  ⟨by decide, by decide, by decide, by decide, by decide, by decide, by decide, by decide,
   pid_removal_mcp_only stSilent stSilentPlugin "w" "p" "r" "r"
     "MCP response timeout" "插件响应超时" wSilent wSilentPlugin
     (by decide) (by decide) (by decide) (by decide)
     (by decide) (by decide) (by decide) (by decide)⟩

-- ---------------------------------------------------------------------------
-- C3: teardown of a replaced worker during connect
-- ---------------------------------------------------------------------------

/-- Counterexample to C3 as stated: replacing an existing worker performs a
direct SIGKILL of the old child plus a wait; no termination signal is ever
sent to its process group, so the teardown is not the graceful sequence of
section 4.4. -/
theorem connect_replacement_not_graceful_cex :
    (mcp_connect_stdio Char.isAlphanum stOld "w" "node" [] [] [] soNew).2.2 =
        [Action.sigkillChild 7, Action.waitChild 7,
         Action.spawnChild [("npm_config_userconfig", "/dev/null")]] ∧
      Action.sigtermGroup 7 ∉
        (mcp_connect_stdio Char.isAlphanum stOld "w" "node" [] [] [] soNew).2.2 := by
  decide

/-- C3 (amended): reconnecting under an existing worker id tears the old worker
down with a direct force-kill of its child followed by a blocking wait — not
the graceful process-group termination of section 4.4 — before the replacement
worker becomes visible; the new worker and its pid are then registered under
the id. -/
theorem connect_replaces_via_direct_kill
    (isAlnum : Char → Bool) (st : ProcessManagerState)
    (id command : String) (args : List String)
    (env parentEnv : List (String × String)) (so : SpawnOutcome) (oldw : Worker)
    (hold : lookupKey st.processes id = some oldw)
    (hval : validate_command isAlnum command = Except.ok ())
    (hsp : so.spawnOk = true) (hin : so.stdinCaptured = true)
    (hout : so.stdoutCaptured = true) (herr : so.stderrCaptured = true) :
    mcp_connect_stdio isAlnum st id command args env parentEnv so =
      (Except.ok (),
       ⟨insertKey (eraseKey st.processes id) id so.worker,
        insertKey st.pids id so.worker.pid⟩,
       [Action.sigkillChild oldw.pid, Action.waitChild oldw.pid,
        Action.spawnChild (build_child_env parentEnv env)]) ∧
    lookupKey (mcp_connect_stdio isAlnum st id command args env parentEnv so).2.1.processes id =
      some so.worker := by
  have heq : mcp_connect_stdio isAlnum st id command args env parentEnv so =
      (Except.ok (),
       ⟨insertKey (eraseKey st.processes id) id so.worker,
        insertKey st.pids id so.worker.pid⟩,
       [Action.sigkillChild oldw.pid, Action.waitChild oldw.pid,
        Action.spawnChild (build_child_env parentEnv env)]) := by
    simp [mcp_connect_stdio, hval, hold, hsp, hin, hout, herr]
  refine ⟨heq, ?_⟩
  rw [heq]
  exact lookupKey_insertKey_self _ _ _

theorem connect_replaces_via_direct_kill_witness :
    lookupKey stOld.processes "w" = some wOld ∧
    validate_command Char.isAlphanum "node" = Except.ok () ∧
    soNew.spawnOk = true ∧ soNew.stdinCaptured = true ∧
    soNew.stdoutCaptured = true ∧ soNew.stderrCaptured = true ∧
    (mcp_connect_stdio Char.isAlphanum stOld "w" "node" [] [] [] soNew =
      (Except.ok (),
       ⟨insertKey (eraseKey stOld.processes "w") "w" soNew.worker,
        insertKey stOld.pids "w" soNew.worker.pid⟩,
       [Action.sigkillChild wOld.pid, Action.waitChild wOld.pid,
        Action.spawnChild (build_child_env [] [])]) ∧
    lookupKey (mcp_connect_stdio Char.isAlphanum stOld "w" "node" [] [] [] soNew).2.1.processes
        "w" = some soNew.worker) :=
  ⟨by decide, by decide, by decide, by decide, by decide, by decide,
   connect_replaces_via_direct_kill Char.isAlphanum stOld "w" "node" [] [] [] soNew wOld
     (by decide) (by decide) (by decide) (by decide) (by decide) (by decide)⟩

-- ---------------------------------------------------------------------------
-- C9: disconnect never fails
-- ---------------------------------------------------------------------------

/-- C9 (confirmed): disconnect never fails the caller — for every state and
worker id (an unknown id, an id whose worker is checked out by an in-flight
request and hence absent from the registry, an id whose process has already
exited), both the MCP disconnect and the plugin disable return unit success. -/
theorem disconnect_never_fails
    (stM stP : ProcessManagerState) (idM idP : String) (eM eP : Bool) :
    (mcp_disconnect stM idM eM).1 = Except.ok () ∧
    (plugin_disable stP idP eP).1 = Except.ok () :=
  ⟨rfl, rfl⟩

-- ---------------------------------------------------------------------------
-- C10: totality of the stderr sanitizer
-- ---------------------------------------------------------------------------

theorem byteTake_cons (n : Nat) (c : Char) (cs : List Char) :
    byteTake n (c :: cs) =
      if n = 0 then some []
      else if utf8Size c ≤ n then (byteTake (n - utf8Size c) cs).map (fun t => c :: t)
      else none := rfl

theorem byteTake_replicate_one (c : Char) (hc : utf8Size c = 1) :
    ∀ (k m : Nat) (rest : List Char),
      byteTake (k + m) (List.replicate k c ++ rest) =
        (byteTake m rest).map (fun t => List.replicate k c ++ t) := by
  intro k
  induction k with
  | zero =>
    intro m rest
    simp only [List.replicate_zero, List.nil_append, Nat.zero_add]
    cases byteTake m rest <;> simp
  | succ j ih =>
    intro m rest
    simp only [List.replicate_succ, List.cons_append]
    rw [byteTake_cons]
    rw [if_neg (by omega), hc, if_pos (by omega)]
    have harith : j + 1 + m - 1 = j + m := by omega
    rw [harith, ih m rest]
    cases byteTake m rest <;> simp [List.replicate_succ]

/-- C10 is refuted by the code: `sanitize_stderr` byte-slices `&stderr_msg[..500]`;
on this 501-byte input (499 one-byte characters then one two-byte character)
index 500 falls inside the final character, the Rust slice panics, and the
embedded truncation accordingly has no result. -/
theorem sanitize_stderr_truncation_panics :
    sanitize_stderr (List.replicate 499 (Char.ofNat 97) ++ [Char.ofNat 233]) = none := by
  have hlen : utf8Len (List.replicate 499 (Char.ofNat 97) ++ [Char.ofNat 233]) = 501 := by
    rw [utf8Len_append, utf8Len_replicate,
      show utf8Size (Char.ofNat 97) = 1 from by decide]
    decide
  have htake : byteTake 500 (List.replicate 499 (Char.ofNat 97) ++ [Char.ofNat 233]) = none := by
    have h := byteTake_replicate_one (Char.ofNat 97) (by decide) 499 1 [Char.ofNat 233]
    rw [show (499 : Nat) + 1 = 500 from rfl] at h
    rw [h]
    decide
  unfold sanitize_stderr
  rw [hlen, if_pos (by norm_num), htake]

end Moraya
